import Mathlib

/-!
# Album controller of waifuseum-rewrite

A shallow embedding of `src/controllers/album.js`, `src/models/album.js` and the
routes that wire them, followed by theorems about the access policy, the listing
modes and the orchestration of the album repository with the channel gateway.

Conventions of the embedding

* An `async` handler wrapped in `try { ... } catch (err) { next(err) }` is a function
  returning `Except Err _`; handlers that write to the database, to the channel cache
  or to the chat platform return the outcome together with the world they leave
  behind, so that writes made before a `throw` stay visible.
* Calls into the chat platform are answers of an environment `Env`: every such call
  may reject. The calls that were carried out are recorded in `World.gateway`.
* Values that are only tested for truthiness keep a JavaScript shape (`JsVal`, or
  `Option` for a field that may be absent).
-/

namespace Waifuseum

/-! ## Values and errors -/

/-- The JavaScript values that reach the controller through a query string or that
the controller leaves unset. -/
inductive JsVal where
  | undefined
  | null
  | bool (b : Bool)
  | num (n : Int)
  | str (s : String)
  deriving DecidableEq, Repr

/-- JavaScript truthiness (`if (v)`, `!v`, `a && b`). -/
def JsVal.truthy : JsVal → Bool
  | .undefined => false
  | .null => false
  | .bool b => b
  | .num n => n != 0
  | .str s => s != ""

/-- Truthiness of an optional boolean field (`undefined` when absent). -/
def flag : Option Bool → Bool
  | some b => b
  | none => false

/-- Truthiness of an optional string field (`undefined` when absent). -/
def nonEmpty : Option String → Bool
  | some s => s != ""
  | none => false

/-- What a handler passes to `next(err)`. `http` is `createError(status, message)`;
`typeError` is the engine's error for a property read on `undefined` or `null`;
`rejected` is a rejection coming from the database or from the chat platform. -/
inductive Err where
  | http (status : Nat) (message : String)
  | typeError (message : String)
  | rejected (message : String)
  deriving DecidableEq, Repr

/-! ## Data model (`src/models/album.js`) -/

/-- The requester, `req.user`. -/
structure User where
  id : String
  abilities : List String
  deriving DecidableEq, Repr

/-- A document of the `User` collection, as far as the controller reads it. -/
structure UserDoc where
  id : String
  discordId : Option String
  deriving DecidableEq, Repr

/-- An album document: the schema paths the controller reads or writes (`pictures`
and the two timestamps are never touched by it). `createdBy` is a reference to a user
document; the schema does not require it, so it may be unset. -/
structure Album where
  id : String
  name : String
  slug : String
  «private» : Bool
  channelId : String
  createdBy : Option String
  deriving DecidableEq, Repr

/-- A document of the `Picture` collection: the album it belongs to. -/
structure Picture where
  album : String
  deriving DecidableEq, Repr

/-- The result of `toJSON`. `«private»` is absent when the query excluded the path
with `select('-private')`. -/
structure AlbumJson where
  id : String
  name : String
  slug : String
  «private» : Option Bool
  deriving DecidableEq, Repr

/-- A live channel handle of the chat platform. -/
structure Channel where
  id : String
  deriving DecidableEq, Repr

/-- A guild member returned by `guild.members.fetch`. -/
structure Member where
  id : String
  deriving DecidableEq, Repr

/-- One entry of `channel.permissionOverwrites.set([...])`. -/
structure Overwrite where
  id : String
  allow : List String
  deny : List String
  deriving DecidableEq, Repr

/-- A call into the chat platform that was carried out. -/
inductive GatewayCall where
  | channelsCreate (name parent : String) (channel : Channel)
  | permissionOverwritesSet (channel : Channel) (overwrites : List Overwrite)
  | setName (channel : Channel) (name : String)
  | delete (channel : Channel)
  deriving DecidableEq, Repr

/-- Everything the handlers read and write: the three collections, the process-wide
map `req.app.data.channels` (album id to channel handle) and the calls made into the
chat platform so far, oldest first. -/
structure World where
  albums : List Album
  users : List UserDoc
  pictures : List Picture
  channels : List (String × Channel)
  gateway : List GatewayCall
  deriving DecidableEq, Repr

/-- What lies outside the repository: `config.json` (`worker`, `parent`), the guild
`req.app.data.server` with the answers of the chat platform, and the identifier the
database driver gives to the next created document. -/
structure Env where
  worker : String
  parent : String
  guildId : String
  freshId : String
  channelsCreate : String → String → Except Err Channel
  membersFetch : String → Except Err (Option Member)
  permissionOverwritesSet : Channel → List Overwrite → Except Err Unit
  setName : Channel → String → Except Err Unit
  channelDelete : Channel → Except Err Unit

/-- The virtual `picturesCount`: `countDocuments({ album: this._id })`. -/
def picturesCount (w : World) (album : Album) : Nat :=
  (w.pictures.filter (fun p => p.album == album.id)).length

/-- The method `toJSON` of the schema. -/
def Album.toJSON (a : Album) : AlbumJson :=
  { id := a.id, name := a.name, slug := a.slug, «private» := some a.«private» }

/-- The method `toJSON` on a document fetched with `select('-private')`. -/
def Album.toJSONSelected (a : Album) : AlbumJson :=
  { id := a.id, name := a.name, slug := a.slug, «private» := none }

/-- The query `Album.findById(id)`. -/
def Album.findById (w : World) (id : String) : Option Album :=
  w.albums.find? (fun a => a.id == id)

/-- The query `User.findById(id)`. -/
def User.findById (w : World) (id : String) : Option UserDoc :=
  w.users.find? (fun u => u.id == id)

/-! ## `load` and `show` -/

/-- The object `req.data` that `load` attaches to the request. -/
structure ReqData where
  album : Album
  canAccess : JsVal
  canModify : JsVal
  deriving DecidableEq, Repr

/-- Whether a string casts to an `ObjectId`: 24 hexadecimal digits. -/
def isObjectId (s : String) : Bool :=
  s.data.length == 24 &&
    s.data.all (fun c => c.isDigit || (c.val ≥ 97 && c.val ≤ 102) || (c.val ≥ 65 && c.val ≤ 70))

/-- The value of `album.createdBy` after `populate('createdBy')`: the user document
the reference points to. -/
inductive Populated where
  | undefined
  | null
  | doc (user : UserDoc)
  deriving DecidableEq, Repr

/-- The step `populate('createdBy')`: an unset path stays `undefined`, a reference to a
document that does not exist becomes `null`. -/
def populate (w : World) (album : Album) : Populated :=
  match album.createdBy with
  | none => .undefined
  | some ref =>
    match User.findById w ref with
    | none => .null
    | some user => .doc user

/-- The handler `load`: `.ok data` is `req.data = data; next()`, `.error e` is
`next(e)`. `Album.findById(id)` rejects when the route parameter does not cast to an
`ObjectId`; `album.createdBy.id` throws when the populated path is `undefined` or
`null`, before the abilities of the requester are looked at. -/
def load (w : World) (user : User) (id : String) : Except Err ReqData :=
  if !isObjectId id then
    .error (.rejected "Cast to ObjectId failed")
  else
    match Album.findById w id with
    | none => .error (.http 404 "Album not found")
    | some album =>
      let canAccess₀ : JsVal := if !album.«private» then .bool true else .undefined
      match populate w album with
      | .undefined =>
        .error (.typeError "Cannot read properties of undefined (reading 'id')")
      | .null => .error (.typeError "Cannot read properties of null (reading 'id')")
      | .doc createdBy =>
        if createdBy.id == user.id || user.abilities.contains "album-admin" then
          .ok { album := album, canAccess := .bool true, canModify := .bool true }
        else
          .ok { album := album, canAccess := canAccess₀, canModify := .undefined }

/-- The body `show` sends with `res.json`. -/
structure ShowBody where
  album : AlbumJson
  picturesCount : Nat
  deriving DecidableEq, Repr

/-- The handler `show`. -/
def «show» (w : World) (data : ReqData) : Except Err ShowBody :=
  if !data.canAccess.truthy then
    .error (.http 403 "You are not allowed to see this album")
  else
    .ok { album := data.album.toJSON, picturesCount := picturesCount w data.album }

/-! ## `index` -/

/-- The query string of `GET /`: `req.query`. -/
structure Query where
  visibility : JsVal
  admin : JsVal
  deriving DecidableEq, Repr

/-- The handler `index`: the list sent as `{ albums }`. -/
def index (w : World) (user : User) (query : Query) : List AlbumJson :=
  if query.admin.truthy && user.abilities.contains "album-admin" then
    w.albums.map Album.toJSON
  else if query.visibility = .str "public" then
    (w.albums.filter (fun a => a.«private» == false)).map Album.toJSONSelected
  else if query.visibility = .str "private" then
    (w.albums.filter (fun a => a.«private» == true && a.createdBy == some user.id)).map
      Album.toJSONSelected
  else
    (w.albums.filter (fun a => a.«private» == false || a.createdBy == some user.id)).map
      Album.toJSON

/-! ## The channel cache -/

/-- The call `req.app.data.channels.set(key, channel)` on the process-wide map. -/
def channelsSet (key : String) (channel : Channel) (m : List (String × Channel)) :
    List (String × Channel) :=
  (key, channel) :: m.filter (fun e => e.1 != key)

/-- Modelled from the spec: `req.app.dbChannels.get`, whose definition is not part of
the controller. The spec describes one process-wide channel-handle cache, keyed by
album id, written by `store` and read by `update` and `destroy`; the lookup answers
with the handle cached under the id, or with `undefined`. -/
def dbChannelsGet (w : World) (albumId : String) : Option Channel :=
  w.channels.lookup albumId

/-! ## `store` -/

/-- The body of `POST /`: `req.body`, after validation. The two flags may be absent. -/
structure StoreBody where
  name : String
  slug : String
  «private» : Option Bool
  comunity : Option Bool
  deriving DecidableEq, Repr

/-- The object `store` hands to `Album.create`. -/
structure AlbumFields where
  name : String
  slug : String
  «private» : Option Bool
  comunity : Option Bool
  channelId : String
  createdBy : String
  deriving DecidableEq, Repr

/-- The object literal of `store`: `{ name, slug, private: comunity ? false : private,
comunity, channelId: channel.id, createdBy: req.user.id }`. -/
def storeFields (user : User) (body : StoreBody) (channel : Channel) : AlbumFields :=
  { name := body.name
    slug := body.slug
    «private» := if flag body.comunity then some false else body.«private»
    comunity := body.comunity
    channelId := channel.id
    createdBy := user.id }

/-- The query `Album.create(fields)`. The schema requires `name`, `slug` and
`channelId` (a required string may not be empty), keeps `slug` unique, defaults
`private` to `false` and has no path for `comunity`, which is therefore dropped. -/
def Album.create (env : Env) (w : World) (f : AlbumFields) : Except Err Album × World :=
  if f.name == "" || f.slug == "" || f.channelId == "" then
    (.error (.rejected "Album validation failed"), w)
  else if w.albums.any (fun a => a.slug == f.slug) then
    (.error (.rejected "E11000 duplicate key error"), w)
  else
    let album : Album :=
      { id := env.freshId
        name := f.name
        slug := f.slug
        «private» := f.«private».getD false
        channelId := f.channelId
        createdBy := some f.createdBy }
    (.ok album, { w with albums := w.albums ++ [album] })

/-- The argument of `permissionOverwrites.set` in `store`, given the resolved owner. -/
def storeOverwriteList (env : Env) (owner : Option Member) : List Overwrite :=
  [ { id := env.guildId, allow := [], deny := ["VIEW_CHANNEL"] },
    { id := env.worker, allow := ["VIEW_CHANNEL"], deny := [] } ] ++
  (match owner with
   | some m => [{ id := m.id, allow := ["VIEW_CHANNEL"], deny := [] }]
   | none => [])

/-- The line `ownerId ? await guild.members.fetch(ownerId) : undefined`. -/
def fetchOwner (env : Env) (ownerId : Option String) : Except Err (Option Member) :=
  match ownerId with
  | some d => if d != "" then env.membersFetch d else .ok none
  | none => .ok none

/-- The block of `store` guarded by `if (private && !comunity)`. -/
def storeOverwrites (env : Env) (w : World) (user : User) (channel : Channel) :
    Except Err Unit × World :=
  match User.findById w user.id with
  | none => (.error (.typeError "Cannot read properties of null (reading 'discordId')"), w)
  | some doc =>
    match fetchOwner env doc.discordId with
    | .error e => (.error e, w)
    | .ok owner =>
      match env.permissionOverwritesSet channel (storeOverwriteList env owner) with
      | .error e => (.error e, w)
      | .ok _ =>
        (.ok (), { w with gateway := w.gateway ++
            [.permissionOverwritesSet channel (storeOverwriteList env owner)] })

/-- A response: its status and its JSON body. -/
structure Res (β : Type) where
  status : Nat
  body : β
  deriving DecidableEq, Repr

/-- The handler `store`. -/
def store (env : Env) (w : World) (user : User) (body : StoreBody) :
    Except Err (Res AlbumJson) × World :=
  match env.channelsCreate ("🌸・" ++ body.slug) env.parent with
  | .error e => (.error e, w)
  | .ok channel =>
    let w₁ : World := { w with gateway := w.gateway ++
      [.channelsCreate ("🌸・" ++ body.slug) env.parent channel] }
    match (if flag body.«private» && !flag body.comunity then
             storeOverwrites env w₁ user channel else (.ok (), w₁)) with
    | (.error e, w₂) => (.error e, w₂)
    | (.ok _, w₂) =>
      match Album.create env w₂ (storeFields user body channel) with
      | (.error e, w₃) => (.error e, w₃)
      | (.ok album, w₃) =>
        (.ok { status := 201, body := album.toJSON },
         { w₃ with channels := channelsSet album.id channel w₃.channels })

/-! ## `update` and `destroy` -/

/-- The body of `PUT /:id`: `req.body`, after validation. -/
structure UpdateBody where
  name : Option String
  slug : Option String
  deriving DecidableEq, Repr

/-- Replaces the first document with the given id. -/
def replaceFirst (id : String) (new : Album) : List Album → List Album
  | [] => []
  | a :: rest => if a.id == id then new :: rest else a :: replaceFirst id new rest

/-- The query `Album.findByIdAndUpdate(id, { name, slug }, { new: true })`: a partial
update (an absent field is left as it is) that answers with the updated document,
with `null` when there is none, and rejects when another album owns the slug. -/
def Album.findByIdAndUpdate (w : World) (id : String) (name slug : Option String) :
    Except Err (Option Album) × World :=
  match Album.findById w id with
  | none => (.ok none, w)
  | some old =>
    let new : Album := { old with name := name.getD old.name, slug := slug.getD old.slug }
    if w.albums.any (fun a => a.id != id && a.slug == new.slug) then
      (.error (.rejected "E11000 duplicate key error"), w)
    else
      (.ok (some new), { w with albums := replaceFirst id new w.albums })

/-- The query `Album.findByIdAndDelete(id)`. -/
def Album.findByIdAndDelete (w : World) (id : String) : World :=
  { w with albums := w.albums.eraseP (fun a => a.id == id) }

/-- The handler `update`. -/
def update (env : Env) (w : World) (data : ReqData) (body : UpdateBody) :
    Except Err (Res AlbumJson) × World :=
  if !data.canModify.truthy then
    (.error (.http 403 "You are not allowed to update this album"), w)
  else
    match Album.findByIdAndUpdate w data.album.id body.name body.slug with
    | (.error e, w₁) => (.error e, w₁)
    | (.ok none, w₁) =>
      (.error (.typeError "Cannot read properties of null"), w₁)
    | (.ok (some album), w₁) =>
      if nonEmpty body.slug then
        match dbChannelsGet w₁ album.id with
        | none =>
          (.error (.typeError "Cannot read properties of undefined (reading 'setName')"), w₁)
        | some channel =>
          match env.setName channel ("🌸・" ++ body.slug.getD "") with
          | .error e => (.error e, w₁)
          | .ok _ =>
            (.ok { status := 200, body := album.toJSON },
             { w₁ with gateway := w₁.gateway ++
                 [.setName channel ("🌸・" ++ body.slug.getD "")] })
      else
        (.ok { status := 200, body := album.toJSON }, w₁)

/-- The handler `destroy`; `.ok 204` is `res.status(204).send()`. -/
def destroy (env : Env) (w : World) (data : ReqData) : Except Err Nat × World :=
  if !data.canModify.truthy then
    (.error (.http 403 "You are not allowed to delete this album"), w)
  else if picturesCount w data.album != 0 then
    (.error (.http 409 "Album is not empty"), w)
  else
    let channel := dbChannelsGet w data.album.id
    let w₁ := Album.findByIdAndDelete w data.album.id
    match channel with
    | none => (.ok 204, w₁)
    | some ch =>
      match env.channelDelete ch with
      | .error e => (.error e, w₁)
      | .ok _ => (.ok 204, { w₁ with gateway := w₁.gateway ++ [.delete ch] })

/-! ## Sample data used to instantiate the theorems -/

/-- An album owner without administrative abilities. -/
def alice : User := { id := "b00000000000000000000001", abilities := ["manage-album"] }

/-- Another requester without administrative abilities. -/
def bob : User := { id := "b00000000000000000000002", abilities := ["manage-album"] }

/-- A requester holding `album-admin`. -/
def carol : User := { id := "b00000000000000000000003", abilities := ["manage-album", "album-admin"] }

/-- A private album of `alice`. -/
def trip : Album :=
  { id := "a00000000000000000000001", name := "Trip", slug := "trip", «private» := true, channelId := "c1",
    createdBy := some "b00000000000000000000001" }

/-- A public album of `alice`. -/
def cats : Album :=
  { id := "a00000000000000000000002", name := "Cats", slug := "cats", «private» := false, channelId := "c2",
    createdBy := some "b00000000000000000000001" }

/-- A world with the two albums, one picture in `trip`, and both channels cached. -/
def world₀ : World :=
  { albums := [trip, cats]
    users := [{ id := "b00000000000000000000001", discordId := some "d1" }, { id := "b00000000000000000000002", discordId := none },
              { id := "b00000000000000000000003", discordId := some "d3" }]
    pictures := [{ album := "a00000000000000000000001" }]
    channels := [("a00000000000000000000001", { id := "c1" }), ("a00000000000000000000002", { id := "c2" })]
    gateway := [] }

/-- A chat platform on which every call goes through. -/
def env₀ : Env :=
  { worker := "worker", parent := "parent", guildId := "guild", freshId := "a00000000000000000000003"
    channelsCreate := fun _ _ => .ok { id := "c3" }
    membersFetch := fun d => .ok (some { id := d })
    permissionOverwritesSet := fun _ _ => .ok ()
    setName := fun _ _ => .ok ()
    channelDelete := fun _ => .ok () }

/-! ## The access policy -/

theorem contains_iff_mem (l : List String) (a : String) : l.contains a = true ↔ a ∈ l := by
  simp [List.contains, List.elem_iff]

/-- What `load` attaches when the album is found and its creator is populated. -/
theorem load_of_populated (w : World) (user : User) (id : String) (album : Album)
    (createdBy : UserDoc) (hid : isObjectId id = true)
    (h : Album.findById w id = some album) (hc : populate w album = .doc createdBy) :
    load w user id = .ok
      { album := album
        canAccess :=
          if createdBy.id == user.id || user.abilities.contains "album-admin" then
            .bool true
          else if !album.«private» then .bool true else .undefined
        canModify :=
          if createdBy.id == user.id || user.abilities.contains "album-admin" then
            .bool true
          else .undefined } := by
  unfold load
  simp only [hid, Bool.not_true, Bool.false_eq_true, if_false, h, hc]
  by_cases hb : (createdBy.id == user.id || user.abilities.contains "album-admin") = true
  · simp only [hb, if_true]
  · simp only [hb, if_false, Bool.false_eq_true]

/-- What `load` forwards when the album is found and its creator is not populated:
the `TypeError` of `album.createdBy.id`, whoever the requester is. -/
theorem load_of_unpopulated (w : World) (user : User) (id : String) (album : Album)
    (hid : isObjectId id = true) (h : Album.findById w id = some album) :
    (populate w album = .undefined →
      load w user id =
        .error (.typeError "Cannot read properties of undefined (reading 'id')")) ∧
    (populate w album = .null →
      load w user id = .error (.typeError "Cannot read properties of null (reading 'id')")) := by
  constructor <;> intro hc <;> unfold load <;>
    simp only [hid, Bool.not_true, Bool.false_eq_true, if_false, h, hc]

/-- On an album whose creator is populated, `canModify` is `true` exactly when the
requester is that creator or holds `album-admin`, and then `canAccess` is `true`. -/
theorem load_canModify_iff_of_creator (w : World) (user : User) (id : String)
    (album : Album) (createdBy : UserDoc) (hid : isObjectId id = true)
    (h : Album.findById w id = some album) (hc : populate w album = .doc createdBy) :
    ∃ data, load w user id = .ok data ∧ data.album = album ∧
      (data.canModify = .bool true ↔
        (user.id = createdBy.id ∨ "album-admin" ∈ user.abilities)) ∧
      (data.canModify = .bool true → data.canAccess = .bool true) := by
  refine ⟨_, load_of_populated w user id album createdBy hid h hc, rfl, ?_, ?_⟩
  · by_cases hb : (createdBy.id == user.id || user.abilities.contains "album-admin") = true
    · simp only [hb, if_true, true_iff]
      simp only [Bool.or_eq_true, beq_iff_eq, contains_iff_mem] at hb
      exact hb.imp Eq.symm (fun x => x)
    · simp only [hb, if_false, Bool.false_eq_true]
      simp only [Bool.or_eq_true, beq_iff_eq, contains_iff_mem] at hb
      constructor
      · intro h'; cases h'
      · intro h'; exact absurd (h'.imp Eq.symm (fun x => x)) hb
  · by_cases hb : (createdBy.id == user.id || user.abilities.contains "album-admin") = true
    · simp only [hb, if_true, implies_true]
    · simp only [hb, if_false, Bool.false_eq_true]
      intro h'; cases h'

/-- On a public album whose creator is populated, `load` ends with `next()` and
`canAccess = true`, for every requester. -/
theorem load_public_canAccess_of_creator (w : World) (user : User) (id : String)
    (album : Album) (createdBy : UserDoc) (hid : isObjectId id = true)
    (h : Album.findById w id = some album) (hc : populate w album = .doc createdBy)
    (hp : album.«private» = false) :
    ∃ data, load w user id = .ok data ∧ data.album = album ∧ data.canAccess = .bool true := by
  refine ⟨_, load_of_populated w user id album createdBy hid h hc, rfl, ?_⟩
  by_cases hb : (createdBy.id == user.id || user.abilities.contains "album-admin") = true
  · simp only [hb, if_true]
  · simp only [hb, if_false, Bool.false_eq_true, hp, Bool.not_false, if_true]

/-- On a private album whose creator is populated, a requester who is neither that
creator nor a holder of `album-admin` gets both flags unset and a 403 from `show`; on
every request whose `canAccess` is truthy, `show` answers with the album JSON and its
`picturesCount`. -/
theorem show_forbidden_or_payload_of_creator (w : World) (user : User) (id : String)
    (album : Album) (createdBy : UserDoc) (hid : isObjectId id = true)
    (h : Album.findById w id = some album) (hc : populate w album = .doc createdBy)
    (hp : album.«private» = true)
    (hu : user.id ≠ createdBy.id) (ha : "album-admin" ∉ user.abilities) :
    (∃ data, load w user id = .ok data ∧ data.album = album ∧
      data.canAccess.truthy = false ∧ data.canModify.truthy = false ∧
      «show» w data = .error (.http 403 "You are not allowed to see this album")) ∧
    (∀ data : ReqData, data.canAccess.truthy = true →
      «show» w data =
        .ok { album := data.album.toJSON, picturesCount := picturesCount w data.album }) := by
  have hcond : (createdBy.id == user.id || user.abilities.contains "album-admin")
      = false := by
    rw [Bool.eq_false_iff]
    intro ht
    simp only [Bool.or_eq_true, beq_iff_eq, contains_iff_mem] at ht
    rcases ht with hx | hx
    · exact hu hx.symm
    · exact ha hx
  constructor
  · refine ⟨_, load_of_populated w user id album createdBy hid h hc, rfl, ?_, ?_, ?_⟩
    · simp only [hcond, Bool.false_eq_true, if_false, hp, Bool.not_true]; rfl
    · simp only [hcond, Bool.false_eq_true, if_false]; rfl
    · simp only [«show», hcond, Bool.false_eq_true, if_false, hp, Bool.not_true]; rfl
  · intro data hd
    simp [«show», hd]

/-- A requester who has no document in the `User` collection. -/
def dave : User := { id := "b00000000000000000000004", abilities := ["manage-album"] }

/-- A request for a public album. -/
def skyBody : StoreBody :=
  { name := "Sky", slug := "sky", «private» := none, comunity := none }

/-- A private album whose `createdBy` path is unset. -/
def ghost : Album :=
  { id := "a00000000000000000000005", name := "Ghost", slug := "ghost", «private» := true,
    channelId := "c5", createdBy := none }

/-- The sample world with the album `ghost` added. -/
def world₁ : World := { world₀ with albums := world₀.albums ++ [ghost] }

/-- C1 breaks on the code at an album whose creator is not populated: `carol` holds
`album-admin`, yet `load` on the existing album `ghost` computes no policy with
`canModify = true`; it forwards the `TypeError` of `album.createdBy.id`. -/
theorem load_admin_typeError :
    Album.findById world₁ "a00000000000000000000005" = some ghost ∧
    "album-admin" ∈ carol.abilities ∧
    load world₁ carol "a00000000000000000000005" =
      .error (.typeError "Cannot read properties of undefined (reading 'id')") := by
  refine ⟨by decide, by decide, rfl⟩

/-- C2 breaks on the code at a public album whose creator does not resolve: `dave`, who
has no user document, stores a public album; `load` on that existing public album then
forwards a `TypeError` to every requester instead of attaching `canAccess = true`. -/
theorem load_public_typeError :
    (store env₀ world₀ dave skyBody).1 = .ok
      { status := 201,
        body := { id := "a00000000000000000000003", name := "Sky", slug := "sky",
                  «private» := some false } } ∧
    Album.findById (store env₀ world₀ dave skyBody).2 "a00000000000000000000003" = some
      { id := "a00000000000000000000003", name := "Sky", slug := "sky", «private» := false,
        channelId := "c3", createdBy := some "b00000000000000000000004" } ∧
    (∀ user : User, load (store env₀ world₀ dave skyBody).2 user "a00000000000000000000003" =
      .error (.typeError "Cannot read properties of null (reading 'id')")) := by
  refine ⟨rfl, by decide, fun user => ?_⟩
  exact (load_of_unpopulated (store env₀ world₀ dave skyBody).2 user
    "a00000000000000000000003"
    { id := "a00000000000000000000003", name := "Sky", slug := "sky", «private» := false,
      channelId := "c3", createdBy := some "b00000000000000000000004" }
    (by decide) (by decide)).2 (by decide)

/-- C3 breaks on the code at a private album whose creator is not populated: `bob` is
neither the creator of `ghost` nor a holder of `album-admin`, yet `load` attaches no
flags and `show` never answers 403; the request ends with the `TypeError` of `load`. -/
theorem load_private_typeError :
    Album.findById world₁ "a00000000000000000000005" = some ghost ∧
    ghost.«private» = true ∧ ghost.createdBy ≠ some bob.id ∧
    "album-admin" ∉ bob.abilities ∧
    load world₁ bob "a00000000000000000000005" =
      .error (.typeError "Cannot read properties of undefined (reading 'id')") := by
  refine ⟨by decide, by decide, by decide, by decide, rfl⟩

/-! ## The listing modes -/

theorem index_admin (w : World) (user : User) (query : Query)
    (h : (query.admin.truthy && user.abilities.contains "album-admin") = true) :
    index w user query = w.albums.map Album.toJSON := by
  simp only [index, h, if_true]

theorem index_not_admin (w : World) (user : User) (query : Query)
    (h : (query.admin.truthy && user.abilities.contains "album-admin") = false) :
    index w user query = index w user { query with admin := .undefined } := by
  simp only [index, h, Bool.false_eq_true, if_false]
  rfl

/-- C7: when `admin` is truthy (`true`, or the query string `"true"`), a requester
holding `album-admin` receives every stored album, the private albums of others
included, and a requester lacking `album-admin` receives exactly what the same query
yields without the `admin` parameter. -/
theorem index_admin_override (w : World) (user : User) (query : Query)
    (hadmin : query.admin.truthy = true) :
    ("album-admin" ∈ user.abilities → index w user query = w.albums.map Album.toJSON) ∧
    ("album-admin" ∉ user.abilities →
      index w user query = index w user { query with admin := .undefined }) := by
  constructor
  · intro ha
    apply index_admin
    rw [hadmin, (contains_iff_mem _ _).2 ha]; rfl
  · intro ha
    apply index_not_admin
    have : user.abilities.contains "album-admin" = false := by
      rw [Bool.eq_false_iff]; intro hx; exact ha ((contains_iff_mem _ _).1 hx)
    rw [this]; simp

theorem index_admin_override_witness :
    (⟨.str "private", .bool true⟩ : Query).admin.truthy = true ∧
    ("album-admin" ∈ carol.abilities →
      index world₀ carol ⟨.str "private", .bool true⟩ = world₀.albums.map Album.toJSON) ∧
    ("album-admin" ∉ carol.abilities →
      index world₀ carol ⟨.str "private", .bool true⟩ =
        index world₀ carol { (⟨.str "private", .bool true⟩ : Query) with admin := .undefined }) :=
  ⟨by decide, index_admin_override world₀ carol ⟨.str "private", .bool true⟩ (by decide)⟩

/-- C6, as stated, fails: with `visibility = 'private'` and `admin = true`, a requester
holding `album-admin` is sent an album created by somebody else. -/
theorem index_private_admin_counterexample :
    (⟨.str "private", .bool true⟩ : Query).visibility = .str "private" ∧
    trip ∈ world₀.albums ∧ trip.createdBy ≠ some carol.id ∧
    trip.toJSON ∈ index world₀ carol ⟨.str "private", .bool true⟩ := by
  decide

/-- C6, amended: with `visibility = 'private'`, unless `admin` is truthy and the
requester holds `album-admin`, every album in the list sent by `index` is a stored
private album created by the requester (serialised without its `private` field). -/
theorem index_private_only_own (w : World) (user : User) (query : Query)
    (hv : query.visibility = .str "private")
    (hadmin : query.admin.truthy = false ∨ "album-admin" ∉ user.abilities) :
    ∀ j ∈ index w user query, ∃ a ∈ w.albums,
      a.createdBy = some user.id ∧ a.«private» = true ∧ j = a.toJSONSelected := by
  have hcond : (query.admin.truthy && user.abilities.contains "album-admin") = false := by
    rw [Bool.eq_false_iff]
    intro ht
    simp only [Bool.and_eq_true, contains_iff_mem] at ht
    rcases hadmin with h | h
    · rw [h] at ht; exact Bool.false_ne_true ht.1
    · exact h ht.2
  intro j hj
  have hne : (JsVal.str "private") ≠ .str "public" := by decide
  simp only [index, hcond, hv, Bool.false_eq_true, if_false, hne, if_true, List.mem_map,
    List.mem_filter, Bool.and_eq_true, beq_iff_eq] at hj
  obtain ⟨a, ⟨ha, hp, hc⟩, rfl⟩ := hj
  exact ⟨a, ha, hc, hp, rfl⟩

theorem index_private_only_own_witness :
    (⟨.str "private", .undefined⟩ : Query).visibility = .str "private" ∧
    ∀ j ∈ index world₀ bob ⟨.str "private", .undefined⟩, ∃ a ∈ world₀.albums,
      a.createdBy = some bob.id ∧ a.«private» = true ∧ j = a.toJSONSelected :=
  ⟨by decide,
   index_private_only_own world₀ bob ⟨.str "private", .undefined⟩ (by decide)
     (Or.inl (by decide))⟩

/-! ## What `store` persists -/

theorem create_ok (env : Env) (w w' : World) (f : AlbumFields) (a : Album)
    (h : Album.create env w f = (.ok a, w')) :
    w' = { w with albums := w.albums ++ [a] } ∧ a.id = env.freshId ∧
      a.«private» = f.«private».getD false := by
  unfold Album.create at h
  split at h
  · cases h
  · split at h
    · cases h
    · simp only [Prod.mk.injEq, Except.ok.injEq] at h
      obtain ⟨rfl, rfl⟩ := h
      exact ⟨rfl, rfl, rfl⟩

theorem create_error (env : Env) (w w' : World) (f : AlbumFields) (e : Err)
    (h : Album.create env w f = (.error e, w')) : w' = w := by
  unfold Album.create at h
  split at h
  · simp only [Prod.mk.injEq] at h; exact h.2.symm
  · split at h
    · simp only [Prod.mk.injEq] at h; exact h.2.symm
    · cases h

theorem storeOverwrites_albums (env : Env) (w : World) (user : User) (channel : Channel) :
    (storeOverwrites env w user channel).2.albums = w.albums ∧
    (storeOverwrites env w user channel).2.channels = w.channels := by
  unfold storeOverwrites
  split
  · exact ⟨rfl, rfl⟩
  · split
    · exact ⟨rfl, rfl⟩
    · split <;> exact ⟨rfl, rfl⟩

/-- The world `store` reaches before it calls `Album.create`, once the channel exists. -/
def storeBeforeCreate (env : Env) (w : World) (user : User) (body : StoreBody)
    (channel : Channel) : Except Err Unit × World :=
  if flag body.«private» && !flag body.comunity then
    storeOverwrites env
      { w with gateway := w.gateway ++
          [.channelsCreate ("🌸・" ++ body.slug) env.parent channel] } user channel
  else
    (.ok (), { w with gateway := w.gateway ++
          [.channelsCreate ("🌸・" ++ body.slug) env.parent channel] })

theorem storeBeforeCreate_albums (env : Env) (w : World) (user : User) (body : StoreBody)
    (channel : Channel) :
    (storeBeforeCreate env w user body channel).2.albums = w.albums ∧
    (storeBeforeCreate env w user body channel).2.channels = w.channels := by
  unfold storeBeforeCreate
  split
  · exact storeOverwrites_albums _ _ _ _
  · exact ⟨rfl, rfl⟩

theorem store_eq (env : Env) (w : World) (user : User) (body : StoreBody) :
    store env w user body =
      match env.channelsCreate ("🌸・" ++ body.slug) env.parent with
      | .error e => (.error e, w)
      | .ok channel =>
        match storeBeforeCreate env w user body channel with
        | (.error e, w₂) => (.error e, w₂)
        | (.ok _, w₂) =>
          match Album.create env w₂ (storeFields user body channel) with
          | (.error e, w₃) => (.error e, w₃)
          | (.ok album, w₃) =>
            (.ok { status := 201, body := album.toJSON },
             { w₃ with channels := channelsSet album.id channel w₃.channels }) := by
  rfl

/-- An account of a successful `store`: the channel that was created, the world before
`Album.create`, and the album that was appended and cached. -/
theorem store_ok (env : Env) (w w' : World) (user : User) (body : StoreBody)
    (res : Res AlbumJson) (h : store env w user body = (.ok res, w')) :
    ∃ channel w₂ album,
      env.channelsCreate ("🌸・" ++ body.slug) env.parent = .ok channel ∧
      storeBeforeCreate env w user body channel = (.ok (), w₂) ∧
      Album.create env w₂ (storeFields user body channel)
        = (.ok album, { w₂ with albums := w₂.albums ++ [album] }) ∧
      res = { status := 201, body := album.toJSON } ∧
      w' = { w₂ with albums := w₂.albums ++ [album],
                     channels := channelsSet album.id channel w₂.channels } := by
  rw [store_eq] at h
  cases hc : env.channelsCreate ("🌸・" ++ body.slug) env.parent with
  | error e => rw [hc] at h; cases h
  | ok channel =>
    rw [hc] at h
    simp only at h
    rcases hb : storeBeforeCreate env w user body channel with ⟨r, w₂⟩
    rw [hb] at h
    cases r with
    | error e => cases h
    | ok u =>
      simp only at h
      rcases hk : Album.create env w₂ (storeFields user body channel) with ⟨r', w₃⟩
      rw [hk] at h
      cases r' with
      | error e => cases h
      | ok album =>
        simp only [Prod.mk.injEq, Except.ok.injEq] at h
        obtain ⟨hw, _, _⟩ := create_ok env w₂ w₃ _ album hk
        subst hw
        exact ⟨channel, w₂, album, rfl, hb, hk, h.1.symm, h.2.symm⟩

/-- When `store` forwards an error, no album was persisted and nothing was cached. -/
theorem store_error (env : Env) (w w' : World) (user : User) (body : StoreBody)
    (e : Err) (h : store env w user body = (.error e, w')) :
    w'.albums = w.albums ∧ w'.channels = w.channels := by
  rw [store_eq] at h
  cases hc : env.channelsCreate ("🌸・" ++ body.slug) env.parent with
  | error e' =>
    rw [hc] at h
    simp only [Prod.mk.injEq] at h
    rw [← h.2]; exact ⟨rfl, rfl⟩
  | ok channel =>
    rw [hc] at h
    simp only at h
    have hb' := storeBeforeCreate_albums env w user body channel
    rcases hb : storeBeforeCreate env w user body channel with ⟨r, w₂⟩
    rw [hb] at h hb'
    cases r with
    | error e' =>
      simp only [Prod.mk.injEq] at h
      rw [← h.2]; exact hb'
    | ok u =>
      simp only at h
      rcases hk : Album.create env w₂ (storeFields user body channel) with ⟨r', w₃⟩
      rw [hk] at h
      cases r' with
      | error e' =>
        simp only [Prod.mk.injEq] at h
        have := create_error env w₂ w₃ _ e' hk
        rw [← h.2, this]; exact hb'
      | ok album => cases h

/-- A request for an album that is both private and for the community. -/
def seaBody : StoreBody :=
  { name := "Sea", slug := "sea", «private» := some true, comunity := some true }

/-- C4: whenever `store` answers a request, it has appended exactly one album record;
if the body has `comunity = true` that record has `private = false` whatever `private`
was requested, and in no case is the record private while the request was for a
community album. When `store` forwards an error, no record was persisted. -/
theorem store_comunity_forces_public (env : Env) (w : World) (user : User)
    (body : StoreBody) :
    (∀ res, (store env w user body).1 = .ok res →
      ∃ album, (store env w user body).2.albums = w.albums ++ [album] ∧
        res = { status := 201, body := album.toJSON } ∧
        (body.comunity = some true → album.«private» = false) ∧
        ¬ (album.«private» = true ∧ body.comunity = some true)) ∧
    (∀ e, (store env w user body).1 = .error e →
      (store env w user body).2.albums = w.albums) := by
  constructor
  · intro res h
    rcases hs : store env w user body with ⟨r, w'⟩
    rw [hs] at h
    simp only at h
    subst h
    obtain ⟨channel, w₂, album, _, hb, hk, hres, hw⟩ := store_ok env w w' user body res hs
    have hw₂ := (storeBeforeCreate_albums env w user body channel).1
    rw [hb] at hw₂
    simp only at hw₂
    obtain ⟨_, _, hp⟩ := create_ok env w₂ _ _ album hk
    have hpub : body.comunity = some true → album.«private» = false := by
      intro hc
      rw [hp]
      simp [storeFields, hc, flag]
    refine ⟨album, ?_, hres, hpub, ?_⟩
    · rw [hw, ← hw₂]
    · rintro ⟨h1, h2⟩
      rw [hpub h2] at h1
      exact Bool.false_ne_true h1
  · intro e h
    rcases hs : store env w user body with ⟨r, w'⟩
    rw [hs] at h
    simp only at h
    subst h
    exact (store_error env w w' user body e hs).1

/-- On the sample world the request `seaBody` is answered, and the record that was
persisted is public. -/
theorem store_comunity_forces_public_sample :
    (store env₀ world₀ alice seaBody).1 =
      .ok { status := 201,
            body := { id := "a00000000000000000000003", name := "Sea", slug := "sea", «private» := some false } } ∧
    (store env₀ world₀ alice seaBody).2.albums = world₀.albums ++
      [{ id := "a00000000000000000000003", name := "Sea", slug := "sea", «private» := false, channelId := "c3",
         createdBy := some "b00000000000000000000001" }] := by
  constructor <;> rfl

/-! ## `destroy` on an album that still has pictures -/

/-- The second guard of `destroy`: a requester who may modify an album that still has
pictures is answered 409, and the world stays as it is. -/
theorem destroy_conflict (env : Env) (w : World) (data : ReqData)
    (hm : data.canModify.truthy = true) (h : 0 < picturesCount w data.album) :
    destroy env w data = (.error (.http 409 "Album is not empty"), w) := by
  have hne : (picturesCount w data.album != 0) = true := by
    simp only [bne_iff_ne, ne_eq]; omega
  simp [destroy, hm, hne]

/-- C5, as stated, fails: `trip` has a picture, and `destroy` requested by `bob`, who
may not modify it, forwards 403 Forbidden, not 409 Conflict. -/
theorem destroy_nonempty_counterexample :
    load world₀ bob "a00000000000000000000001" = .ok { album := trip, canAccess := .undefined, canModify := .undefined } ∧
    0 < picturesCount world₀ trip ∧
    destroy env₀ world₀ { album := trip, canAccess := .undefined, canModify := .undefined }
      = (.error (.http 403 "You are not allowed to delete this album"), world₀) ∧
    (destroy env₀ world₀ { album := trip, canAccess := .undefined, canModify := .undefined }).1
      ≠ .error (.http 409 "Album is not empty") := by
  refine ⟨rfl, by decide, rfl, ?_⟩
  intro h
  have h' : (Except.error (Err.http 403 "You are not allowed to delete this album") :
      Except Err Nat) = .error (.http 409 "Album is not empty") := h
  simp at h'

/-- C5, amended: for every album whose `picturesCount` is greater than 0, `destroy`
forwards an error and changes nothing: neither the album record nor the channel is
deleted. The error is 409 Conflict when the requester may modify the album and 403
Forbidden otherwise. -/
theorem destroy_nonempty_fails (env : Env) (w : World) (data : ReqData)
    (h : 0 < picturesCount w data.album) :
    destroy env w data =
      (.error (if data.canModify.truthy then .http 409 "Album is not empty"
               else .http 403 "You are not allowed to delete this album"), w) := by
  cases hm : data.canModify.truthy with
  | false => simp [destroy, hm]
  | true => simp [destroy_conflict env w data hm h]

theorem destroy_nonempty_fails_witness :
    0 < picturesCount world₀ trip ∧
    destroy env₀ world₀ { album := trip, canAccess := .bool true, canModify := .bool true } =
      (.error (if (JsVal.bool true).truthy then .http 409 "Album is not empty"
               else .http 403 "You are not allowed to delete this album"), world₀) :=
  ⟨by decide,
   destroy_nonempty_fails env₀ world₀
     { album := trip, canAccess := .bool true, canModify := .bool true } (by decide)⟩

/-! ## Errors of `update` and `destroy` and the album repository -/

/-- A chat platform that refuses to rename and to delete channels. -/
def envDown : Env :=
  { env₀ with
    setName := fun _ _ => .error (.rejected "Missing Permissions")
    channelDelete := fun _ => .error (.rejected "Missing Permissions") }

theorem findByIdAndUpdate_error (w w' : World) (id : String) (name slug : Option String)
    (e : Err) (h : Album.findByIdAndUpdate w id name slug = (.error e, w')) : w' = w := by
  unfold Album.findByIdAndUpdate at h
  split at h
  · cases h
  · dsimp only at h
    split at h
    · simp only [Prod.mk.injEq] at h; exact h.2.symm
    · cases h

theorem findByIdAndUpdate_none (w w' : World) (id : String) (name slug : Option String)
    (h : Album.findByIdAndUpdate w id name slug = (.ok none, w')) : w' = w := by
  unfold Album.findByIdAndUpdate at h
  split at h
  · simp only [Prod.mk.injEq] at h; exact h.2.symm
  · dsimp only at h
    split at h
    · cases h
    · cases h

/-- C10, as stated, fails: when the rename is refused, or when no handle is cached,
`update` forwards an error although the record already carries the new slug; when the
deletion of the channel is refused, `destroy` forwards an error although the record is
already gone. -/
theorem error_after_commit_counterexample :
    (update envDown world₀ { album := trip, canAccess := .bool true, canModify := .bool true }
        { name := none, slug := some "voyage" } =
      (.error (.rejected "Missing Permissions"),
       { world₀ with albums := [{ trip with slug := "voyage" }, cats] }) ∧
     [{ trip with slug := "voyage" }, cats] ≠ world₀.albums) ∧
    (update env₀ { world₀ with channels := [] }
        { album := trip, canAccess := .bool true, canModify := .bool true }
        { name := none, slug := some "voyage" } =
      (.error (.typeError "Cannot read properties of undefined (reading 'setName')"),
       { world₀ with albums := [{ trip with slug := "voyage" }, cats], channels := [] })) ∧
    (destroy envDown world₀ { album := cats, canAccess := .bool true, canModify := .bool true } =
      (.error (.rejected "Missing Permissions"), { world₀ with albums := [trip] }) ∧
     [trip] ≠ world₀.albums) := by
  refine ⟨⟨rfl, by decide⟩, rfl, rfl, by decide⟩

/-- C10, amended: when `update` or `destroy` forwards an error, the world is exactly as
before the call (so the record is neither modified nor deleted) unless the error comes
from the channel step, which runs after the write: for `update` a handle that is
missing from the cache or a rename that is refused, with the record already updated;
for `destroy` a channel deletion that is refused, with the record already deleted. In
particular the Forbidden and Conflict errors leave the world untouched, and whenever
the channel step fails the error is forwarded with the write left in place. -/
theorem error_leaves_repository_unless_channel_step (env : Env) (w : World)
    (data : ReqData) (body : UpdateBody) :
    (∀ e w', update env w data body = (.error e, w') →
      w' = w ∨
      ∃ album, Album.findByIdAndUpdate w data.album.id body.name body.slug
          = (.ok (some album), w') ∧ nonEmpty body.slug = true ∧
        (dbChannelsGet w' album.id = none ∨
         ∃ ch, dbChannelsGet w' album.id = some ch ∧
           env.setName ch ("🌸・" ++ body.slug.getD "") = .error e)) ∧
    (∀ e w', destroy env w data = (.error e, w') →
      w' = w ∨
      ∃ ch, dbChannelsGet w data.album.id = some ch ∧ env.channelDelete ch = .error e ∧
        w' = Album.findByIdAndDelete w data.album.id) ∧
    (data.canModify.truthy = false →
      update env w data body =
        (.error (.http 403 "You are not allowed to update this album"), w) ∧
      destroy env w data =
        (.error (.http 403 "You are not allowed to delete this album"), w)) ∧
    (data.canModify.truthy = true → 0 < picturesCount w data.album →
      destroy env w data = (.error (.http 409 "Album is not empty"), w)) ∧
    (∀ album w₁, data.canModify.truthy = true →
      Album.findByIdAndUpdate w data.album.id body.name body.slug = (.ok (some album), w₁) →
      nonEmpty body.slug = true →
      (dbChannelsGet w₁ album.id = none →
        update env w data body =
          (.error (.typeError "Cannot read properties of undefined (reading 'setName')"),
           w₁)) ∧
      (∀ ch e, dbChannelsGet w₁ album.id = some ch →
        env.setName ch ("🌸・" ++ body.slug.getD "") = .error e →
        update env w data body = (.error e, w₁))) ∧
    (∀ ch e, data.canModify.truthy = true → picturesCount w data.album = 0 →
      dbChannelsGet w data.album.id = some ch → env.channelDelete ch = .error e →
      destroy env w data = (.error e, Album.findByIdAndDelete w data.album.id)) := by
  refine ⟨?_, ?_, ?_, ?_, ?_, ?_⟩
  · intro e w' h
    unfold update at h
    split at h
    · simp only [Prod.mk.injEq] at h; exact Or.inl h.2.symm
    · rcases hu : Album.findByIdAndUpdate w data.album.id body.name body.slug with ⟨r, w₁⟩
      rw [hu] at h
      cases r with
      | error e' =>
        simp only [Prod.mk.injEq] at h
        rw [← h.2]
        exact Or.inl (findByIdAndUpdate_error w w₁ _ _ _ e' hu)
      | ok o =>
        cases o with
        | none =>
          simp only [Prod.mk.injEq] at h
          rw [← h.2]
          exact Or.inl (findByIdAndUpdate_none w w₁ _ _ _ hu)
        | some album =>
          simp only at h
          split at h
          · rename_i hs
            cases hg : dbChannelsGet w₁ album.id with
            | none =>
              rw [hg] at h
              simp only [Prod.mk.injEq] at h
              obtain ⟨_, rfl⟩ := h
              exact Or.inr ⟨album, rfl, hs, Or.inl hg⟩
            | some ch =>
              rw [hg] at h
              simp only at h
              cases hn : env.setName ch ("🌸・" ++ body.slug.getD "") with
              | error e' =>
                rw [hn] at h
                simp only [Prod.mk.injEq, Except.error.injEq] at h
                obtain ⟨rfl, rfl⟩ := h
                exact Or.inr ⟨album, rfl, hs, Or.inr ⟨ch, hg, hn⟩⟩
              | ok u => rw [hn] at h; cases h
          · cases h
  · intro e w' h
    unfold destroy at h
    split at h
    · simp only [Prod.mk.injEq] at h; exact Or.inl h.2.symm
    · split at h
      · simp only [Prod.mk.injEq] at h; exact Or.inl h.2.symm
      · simp only at h
        cases hg : dbChannelsGet w data.album.id with
        | none => rw [hg] at h; cases h
        | some ch =>
          rw [hg] at h
          simp only at h
          cases hd : env.channelDelete ch with
          | error e' =>
            rw [hd] at h
            simp only [Prod.mk.injEq, Except.error.injEq] at h
            obtain ⟨rfl, rfl⟩ := h
            exact Or.inr ⟨ch, rfl, hd, rfl⟩
          | ok u => rw [hd] at h; cases h
  · intro hm
    constructor
    · simp [update, hm]
    · simp [destroy, hm]
  · intro hm hp
    exact destroy_conflict env w data hm hp
  · intro album w₁ hm hu hs
    constructor
    · intro hg
      unfold update
      simp only [hm, Bool.not_true, Bool.false_eq_true, if_false, hu, hs, if_true, hg]
    · intro ch e hg hn
      unfold update
      simp only [hm, Bool.not_true, Bool.false_eq_true, if_false, hu, hs, if_true, hg, hn]
  · intro ch e hm hp hg hd
    unfold destroy
    simp only [hm, Bool.not_true, Bool.false_eq_true, if_false, hp, bne_self_eq_false, hg, hd]

/-! ## The permission overwrites set by `store` -/

theorem create_accepts (env : Env) (w : World) (f : AlbumFields)
    (hn : f.name ≠ "") (hs : f.slug ≠ "") (hc : f.channelId ≠ "")
    (hu : ∀ a ∈ w.albums, a.slug ≠ f.slug) :
    Album.create env w f =
      (.ok { id := env.freshId, name := f.name, slug := f.slug,
             «private» := f.«private».getD false, channelId := f.channelId,
             createdBy := some f.createdBy },
       { w with albums := w.albums ++
           [{ id := env.freshId, name := f.name, slug := f.slug,
              «private» := f.«private».getD false, channelId := f.channelId,
              createdBy := some f.createdBy }] }) := by
  unfold Album.create
  have h1 : (f.name == "" || f.slug == "" || f.channelId == "") = false := by
    simp [hn, hs, hc]
  have h2 : (w.albums.any fun a => a.slug == f.slug) = false := by
    rw [Bool.eq_false_iff]
    intro ht
    simp only [List.any_eq_true, beq_iff_eq] at ht
    obtain ⟨a, ha, he⟩ := ht
    exact hu a ha he
  simp only [h1, h2, Bool.false_eq_true, if_false]

theorem store_gateway (env : Env) (w : World) (user : User) (body : StoreBody)
    (channel : Channel)
    (hch : env.channelsCreate ("🌸・" ++ body.slug) env.parent = .ok channel) :
    (store env w user body).2.gateway
      = (storeBeforeCreate env w user body channel).2.gateway := by
  rw [store_eq, hch]
  simp only
  rcases hb : storeBeforeCreate env w user body channel with ⟨r, w₂⟩
  cases r with
  | error e => rfl
  | ok u =>
    simp only
    rcases hk : Album.create env w₂ (storeFields user body channel) with ⟨r', w₃⟩
    cases r' with
    | error e => simp only; rw [create_error env w₂ w₃ _ e hk]
    | ok album => simp only; rw [(create_ok env w₂ w₃ _ album hk).1]

/-- A chat platform on which the member lookup rejects. -/
def envUnknownMember : Env :=
  { env₀ with membersFetch := fun _ => .error (.rejected "Unknown Member") }

/-- A request for a private album that is not for the community. -/
def lakeBody : StoreBody :=
  { name := "Lake", slug := "lake", «private» := some true, comunity := some false }

/-- C8, as stated, fails: `alice` has an external id, the member lookup rejects, and
`store` forwards the rejection instead of succeeding with two overwrites; the channel
was created, no overwrite was set and no album was persisted. -/
theorem store_lookup_rejects_counterexample :
    User.findById world₀ alice.id = some { id := "b00000000000000000000001", discordId := some "d1" } ∧
    envUnknownMember.membersFetch "d1" = .error (.rejected "Unknown Member") ∧
    store envUnknownMember world₀ alice lakeBody =
      (.error (.rejected "Unknown Member"),
       { world₀ with gateway := [.channelsCreate "🌸・lake" "parent" { id := "c3" }] }) := by
  refine ⟨by decide, rfl, rfl⟩

/-- C8, amended: for a `store` request with `private = true` and `comunity` not set,
issued by a requester who has a user record, once the channel is created: if the owner
lookup answers (with a member, or with nothing because the user has no external id),
`store` sets the overwrites to deny `VIEW_CHANNEL` for the guild, allow it for the
worker, and allow it for the member exactly when there is one, and it answers 201
whenever the record is accepted by the repository; if the member lookup rejects,
`store` forwards that error with only the channel created. For every other request no
overwrites are set. -/
theorem store_permission_overwrites (env : Env) (w : World) (user : User)
    (body : StoreBody) (channel : Channel)
    (hch : env.channelsCreate ("🌸・" ++ body.slug) env.parent = .ok channel) :
    (flag body.«private» = true → flag body.comunity = false →
      ∀ doc, User.findById w user.id = some doc →
        (∀ owner, fetchOwner env doc.discordId = .ok owner →
          env.permissionOverwritesSet channel (storeOverwriteList env owner) = .ok () →
          (store env w user body).2.gateway = w.gateway ++
            [.channelsCreate ("🌸・" ++ body.slug) env.parent channel,
             .permissionOverwritesSet channel (storeOverwriteList env owner)] ∧
          (body.name ≠ "" → body.slug ≠ "" → channel.id ≠ "" →
            (∀ a ∈ w.albums, a.slug ≠ body.slug) →
            (store env w user body).1 = .ok
              { status := 201,
                body := { id := env.freshId, name := body.name, slug := body.slug,
                          «private» := some true } })) ∧
        (∀ e, fetchOwner env doc.discordId = .error e →
          store env w user body =
            (.error e, { w with gateway := w.gateway ++
              [.channelsCreate ("🌸・" ++ body.slug) env.parent channel] }))) ∧
    (¬ (flag body.«private» = true ∧ flag body.comunity = false) →
      (store env w user body).2.gateway = w.gateway ++
        [.channelsCreate ("🌸・" ++ body.slug) env.parent channel]) ∧
    (fetchOwner env none = .ok none ∧ fetchOwner env (some "") = .ok none ∧
      ∀ d, d ≠ "" → fetchOwner env (some d) = env.membersFetch d) ∧
    (storeOverwriteList env none =
        [{ id := env.guildId, allow := [], deny := ["VIEW_CHANNEL"] },
         { id := env.worker, allow := ["VIEW_CHANNEL"], deny := [] }] ∧
     ∀ m, storeOverwriteList env (some m) =
        [{ id := env.guildId, allow := [], deny := ["VIEW_CHANNEL"] },
         { id := env.worker, allow := ["VIEW_CHANNEL"], deny := [] },
         { id := m.id, allow := ["VIEW_CHANNEL"], deny := [] }]) := by
  refine ⟨?_, ?_, ⟨rfl, rfl, ?_⟩, ⟨rfl, fun _ => rfl⟩⟩
  · intro hp hc doc hdoc
    have hcond : (flag body.«private» && !flag body.comunity) = true := by
      rw [hp, hc]; rfl
    have hfind : User.findById
        { w with gateway := w.gateway ++
            [.channelsCreate ("🌸・" ++ body.slug) env.parent channel] } user.id = some doc :=
      hdoc
    constructor
    · intro owner hf hset
      have hb : storeBeforeCreate env w user body channel =
          (.ok (), { w with gateway := w.gateway ++
            [.channelsCreate ("🌸・" ++ body.slug) env.parent channel] ++
            [.permissionOverwritesSet channel (storeOverwriteList env owner)] }) := by
        unfold storeBeforeCreate
        simp only [hcond, if_true]
        unfold storeOverwrites
        rw [hfind]
        simp only [hf, hset]
      constructor
      · rw [store_gateway env w user body channel hch, hb]
        simp
      · intro hn hs hci hu
        rw [store_eq, hch]
        simp only [hb]
        have hk := create_accepts env
          { w with gateway := w.gateway ++
            [.channelsCreate ("🌸・" ++ body.slug) env.parent channel] ++
            [.permissionOverwritesSet channel (storeOverwriteList env owner)] }
          (storeFields user body channel) hn hs hci hu
        rw [hk]
        have hpriv : body.«private» = some true := by
          cases hbp : body.«private» with
          | none => rw [hbp] at hp; cases hp
          | some b => rw [hbp] at hp; simp only [flag] at hp; rw [hp]
        simp [storeFields, hc, hpriv, Album.toJSON]
    · intro e hf
      rw [store_eq, hch]
      have hb : storeBeforeCreate env w user body channel =
          (.error e, { w with gateway := w.gateway ++
            [.channelsCreate ("🌸・" ++ body.slug) env.parent channel] }) := by
        unfold storeBeforeCreate
        simp only [hcond, if_true]
        unfold storeOverwrites
        rw [hfind]
        simp only [hf]
      simp only [hb]
  · intro hn
    have hcond : (flag body.«private» && !flag body.comunity) = false := by
      rw [Bool.eq_false_iff]
      intro ht
      simp only [Bool.and_eq_true, Bool.not_eq_true'] at ht
      exact hn ht
    rw [store_gateway env w user body channel hch]
    unfold storeBeforeCreate
    simp only [hcond, Bool.false_eq_true, if_false]
  · intro d hd
    simp [fetchOwner, hd]

theorem store_permission_overwrites_witness :
    env₀.channelsCreate ("🌸・" ++ lakeBody.slug) env₀.parent = .ok { id := "c3" } ∧
    (store env₀ world₀ alice lakeBody).2.gateway =
      [.channelsCreate "🌸・lake" "parent" { id := "c3" },
       .permissionOverwritesSet { id := "c3" }
         [{ id := "guild", allow := [], deny := ["VIEW_CHANNEL"] },
          { id := "worker", allow := ["VIEW_CHANNEL"], deny := [] },
          { id := "d1", allow := ["VIEW_CHANNEL"], deny := [] }]] ∧
    (store env₀ world₀ alice lakeBody).1 = .ok
      { status := 201,
        body := { id := "a00000000000000000000003", name := "Lake", slug := "lake", «private» := some true } } := by
  have h := (store_permission_overwrites env₀ world₀ alice lakeBody { id := "c3" } rfl).1
    rfl rfl { id := "b00000000000000000000001", discordId := some "d1" } (by decide)
  have h' := h.1 (some { id := "d1" }) rfl rfl
  exact ⟨rfl, h'.1, h'.2 (by decide) (by decide) (by decide) (by decide)⟩

/-! ## The channel cache between `store`, `update` and `destroy` -/

/-- A request that writes: `POST /`, `PUT /:id` or `DELETE /:id`, with the answers of
the chat platform during that request. -/
inductive Op where
  | post (env : Env) (user : User) (body : StoreBody)
  | put (env : Env) (data : ReqData) (body : UpdateBody)
  | del (env : Env) (data : ReqData)

/-- The world a request leaves behind. -/
def Op.run (w : World) : Op → World
  | .post env user body => (store env w user body).2
  | .put env data body => (update env w data body).2
  | .del env data => (destroy env w data).2

/-- The identifier the database driver would give to the album a request creates. -/
def Op.freshId : Op → Option String
  | .post env _ _ => some env.freshId
  | .put _ _ _ => none
  | .del _ _ => none

/-- The world after a sequence of requests, served one after the other. -/
def runOps (w : World) (ops : List Op) : World :=
  ops.foldl Op.run w

theorem lookup_channelsSet (key : String) (channel : Channel) (m : List (String × Channel)) :
    (channelsSet key channel m).lookup key = some channel := by
  simp [channelsSet, List.lookup]

theorem lookup_filter_ne (key other : String) (hne : key ≠ other) :
    ∀ m : List (String × Channel),
      (m.filter (fun e => e.1 != key)).lookup other = m.lookup other
  | [] => rfl
  | (k, v) :: rest => by
    by_cases hk : k = key
    · subst hk
      have hko : (other == k) = false := by
        rw [beq_eq_false_iff_ne]; exact fun h => hne h.symm
      simp only [List.filter, bne_self_eq_false, List.lookup, hko]
      exact lookup_filter_ne k other hne rest
    · have hkk : (k != key) = true := by simp [hk]
      simp only [List.filter, hkk, List.lookup]
      cases other == k with
      | true => rfl
      | false => exact lookup_filter_ne key other hne rest

theorem lookup_channelsSet_ne (key other : String) (channel : Channel)
    (m : List (String × Channel)) (hne : key ≠ other) :
    (channelsSet key channel m).lookup other = m.lookup other := by
  have hko : (other == key) = false := by
    rw [beq_eq_false_iff_ne]; exact fun h => hne h.symm
  simp only [channelsSet, List.lookup, hko]
  exact lookup_filter_ne key other hne m

theorem findByIdAndUpdate_some (w w' : World) (id : String) (name slug : Option String)
    (album : Album) (h : Album.findByIdAndUpdate w id name slug = (.ok (some album), w')) :
    album.id = id ∧ w'.channels = w.channels ∧ w'.gateway = w.gateway := by
  unfold Album.findByIdAndUpdate at h
  split at h
  · cases h
  · rename_i old hold
    dsimp only at h
    split at h
    · cases h
    · simp only [Prod.mk.injEq, Except.ok.injEq, Option.some.injEq] at h
      obtain ⟨rfl, rfl⟩ := h
      have := List.find?_some hold
      simp only [beq_iff_eq] at this
      exact ⟨this, rfl, rfl⟩

theorem update_channels (env : Env) (w : World) (data : ReqData) (body : UpdateBody) :
    (update env w data body).2.channels = w.channels := by
  unfold update
  split
  · rfl
  · rcases hu : Album.findByIdAndUpdate w data.album.id body.name body.slug with ⟨r, w₁⟩
    cases r with
    | error e => simp only; rw [findByIdAndUpdate_error w w₁ _ _ _ e hu]
    | ok o =>
      cases o with
      | none => simp only; rw [findByIdAndUpdate_none w w₁ _ _ _ hu]
      | some album =>
        have hc := (findByIdAndUpdate_some w w₁ _ _ _ album hu).2.1
        simp only
        split
        · split
          · exact hc
          · split <;> exact hc
        · exact hc

theorem destroy_channels (env : Env) (w : World) (data : ReqData) :
    (destroy env w data).2.channels = w.channels := by
  unfold destroy
  split
  · rfl
  · split
    · rfl
    · simp only
      split
      · rfl
      · split <;> rfl

theorem store_channels (env : Env) (w : World) (user : User) (body : StoreBody)
    (key : String) (hne : env.freshId ≠ key) :
    (store env w user body).2.channels.lookup key = w.channels.lookup key := by
  rcases hs : store env w user body with ⟨r, w'⟩
  cases r with
  | error e => simp only; rw [(store_error env w w' user body e hs).2]
  | ok res =>
    obtain ⟨channel, w₂, album, _, hb, hk, _, hw⟩ := store_ok env w w' user body res hs
    have hw₂ := (storeBeforeCreate_albums env w user body channel).2
    rw [hb] at hw₂
    simp only at hw₂
    obtain ⟨_, hid, _⟩ := create_ok env w₂ _ _ album hk
    simp only
    rw [hw]
    simp only
    rw [hid, lookup_channelsSet_ne _ _ _ _ hne, hw₂]

theorem runOps_channels (key : String) :
    ∀ (ops : List Op) (w : World), (∀ op ∈ ops, op.freshId ≠ some key) →
      (runOps w ops).channels.lookup key = w.channels.lookup key
  | [], _, _ => rfl
  | op :: rest, w, h => by
    have hrest : ∀ o ∈ rest, o.freshId ≠ some key :=
      fun o ho => h o (List.mem_cons_of_mem _ ho)
    have hop := h op (List.mem_cons_self _ _)
    show (runOps (op.run w) rest).channels.lookup key = _
    rw [runOps_channels key rest (op.run w) hrest]
    cases op with
    | post env user body =>
      apply store_channels
      intro he
      apply hop
      simp only [Op.freshId, he]
    | put env data body => exact congrArg (fun m => m.lookup key) (update_channels env w data body)
    | del env data => exact congrArg (fun m => m.lookup key) (destroy_channels env w data)

/-- C9: when `store` succeeds and creates album id `X`, the channel it created is cached
under `X`; after any later sequence of requests that create no second album with the
same id, the cache still answers `X` with that handle, `update` on `X` with a slug
renames that channel to `"🌸・" + slug`, and `destroy` on `X` deletes that channel. -/
theorem cached_channel_is_reused (env : Env) (w : World) (user : User) (body : StoreBody)
    (res : Res AlbumJson) (ops : List Op)
    (h : (store env w user body).1 = .ok res)
    (hfresh : ∀ op ∈ ops, op.freshId ≠ some res.body.id) :
    ∃ channel, env.channelsCreate ("🌸・" ++ body.slug) env.parent = .ok channel ∧
      dbChannelsGet (store env w user body).2 res.body.id = some channel ∧
      dbChannelsGet (runOps (store env w user body).2 ops) res.body.id = some channel ∧
      (∀ (env' : Env) (data : ReqData) (ubody : UpdateBody) (s : String) (album : Album)
          (w₁ : World),
        data.album.id = res.body.id → data.canModify.truthy = true →
        ubody.slug = some s → s ≠ "" →
        Album.findByIdAndUpdate (runOps (store env w user body).2 ops) data.album.id
            ubody.name ubody.slug = (.ok (some album), w₁) →
        update env' (runOps (store env w user body).2 ops) data ubody =
          match env'.setName channel ("🌸・" ++ s) with
          | .error e => (.error e, w₁)
          | .ok _ =>
            (.ok { status := 200, body := album.toJSON },
             { w₁ with gateway := w₁.gateway ++ [.setName channel ("🌸・" ++ s)] })) ∧
      (∀ (env' : Env) (data : ReqData),
        data.album.id = res.body.id → data.canModify.truthy = true →
        picturesCount (runOps (store env w user body).2 ops) data.album = 0 →
        destroy env' (runOps (store env w user body).2 ops) data =
          match env'.channelDelete channel with
          | .error e =>
            (.error e,
             Album.findByIdAndDelete (runOps (store env w user body).2 ops) data.album.id)
          | .ok _ =>
            (.ok 204,
             { Album.findByIdAndDelete (runOps (store env w user body).2 ops) data.album.id
               with gateway := (runOps (store env w user body).2 ops).gateway ++
                 [.delete channel] })) := by
  rcases hs : store env w user body with ⟨r, w'⟩
  rw [hs] at h
  simp only at h
  subst h
  obtain ⟨channel, w₂, album₀, hch, _, _, hres, hw⟩ := store_ok env w w' user body res hs
  have hid : res.body.id = album₀.id := by rw [hres]; rfl
  have hget : dbChannelsGet w' res.body.id = some channel := by
    rw [hid, hw]
    exact lookup_channelsSet _ _ _
  have hlater : dbChannelsGet (runOps w' ops) res.body.id = some channel := by
    unfold dbChannelsGet
    rw [runOps_channels res.body.id ops w' hfresh]
    exact hget
  refine ⟨channel, hch, hget, hlater, ?_, ?_⟩
  · intro env' data ubody s album w₁ hx hm hslug hs' hu
    obtain ⟨haid, hchan, _⟩ := findByIdAndUpdate_some _ _ _ _ _ album hu
    have hg : dbChannelsGet w₁ album.id = some channel := by
      unfold dbChannelsGet
      rw [hchan, haid, hx]
      exact hlater
    have hne : nonEmpty ubody.slug = true := by
      rw [hslug]; simp [nonEmpty, hs']
    unfold update
    simp only [hm, Bool.not_true, Bool.false_eq_true, if_false, hu, hne, if_true, hg]
    rw [hslug]
    rfl
  · intro env' data hx hm hp
    have hg : dbChannelsGet (runOps w' ops) data.album.id = some channel := by
      rw [hx]; exact hlater
    unfold destroy
    simp only [hm, Bool.not_true, Bool.false_eq_true, if_false, hp, bne_self_eq_false, hg]
    cases env'.channelDelete channel <;> rfl

/-- A later request that creates a second album. -/
def envNext : Env := { env₀ with freshId := "a00000000000000000000004", channelsCreate := fun _ _ => .ok { id := "c4" } }

theorem cached_channel_is_reused_witness :
    (store env₀ world₀ alice lakeBody).1 = .ok
      { status := 201,
        body := { id := "a00000000000000000000003", name := "Lake", slug := "lake", «private» := some true } } ∧
    dbChannelsGet (runOps (store env₀ world₀ alice lakeBody).2
        [.post envNext bob seaBody]) "a00000000000000000000003" = some { id := "c3" } ∧
    update env₀ (runOps (store env₀ world₀ alice lakeBody).2 [.post envNext bob seaBody])
        { album := { id := "a00000000000000000000003", name := "Lake", slug := "lake", «private» := true,
                     channelId := "c3", createdBy := some "b00000000000000000000001" },
          canAccess := .bool true, canModify := .bool true }
        { name := none, slug := some "pond" } =
      (.ok { status := 200,
             body := { id := "a00000000000000000000003", name := "Lake", slug := "pond", «private» := some true } },
       { (Album.findByIdAndUpdate
            (runOps (store env₀ world₀ alice lakeBody).2 [.post envNext bob seaBody])
            "a00000000000000000000003" none (some "pond")).2 with
         gateway := (runOps (store env₀ world₀ alice lakeBody).2
             [.post envNext bob seaBody]).gateway ++ [.setName { id := "c3" } "🌸・pond"] }) := by
  obtain ⟨channel, hch, _, hlater, hupd, _⟩ :=
    cached_channel_is_reused env₀ world₀ alice lakeBody
      { status := 201,
        body := { id := "a00000000000000000000003", name := "Lake", slug := "lake", «private» := some true } }
      [.post envNext bob seaBody] rfl (by decide)
  have hc : channel = { id := "c3" } := by
    have : (Except.ok { id := "c3" } : Except Err Channel) = .ok channel := hch
    simp only [Except.ok.injEq] at this
    exact this.symm
  subst hc
  exact ⟨rfl, hlater, rfl⟩

end Waifuseum
